import Mathlib

/-!
Shallow embedding of the AI-Healthcare-Bot backend (src/backend/app.py).

The backend is a small Flask application over a SQLite store with two
tables, chats and messages, plus one outbound completion call.  We model
the store as explicit state, each SQL statement as a pure state
transformer, and fault injection for the storage layer as a schedule
assigning to each low-level execute call an optional raised error.
Timestamps are abstract naturals supplied by the caller (the code reads
the wall clock at each insert).
-/

/-- Rows of the messages table: id, chat_id, content, is_bot, timestamp
(spec section 6; the schema file itself is not in the source tree, so the
column set follows the spec and the columns the code references). -/
structure MessageRow where
  id : Nat
  chat_id : Nat
  content : String
  is_bot : Bool
  timestamp : Nat
deriving DecidableEq

/-- Rows of the chats table: id and title. -/
structure ChatRow where
  id : Nat
  title : String
deriving DecidableEq

/-- Modelled from the spec: the schema file (schema.sql) is not under the
source tree, so id assignment follows the spec, which calls the id
auto-incrementing and the post-clear id a fresh identifier: the store
keeps monotonic counters for the next chat id and the next message id. -/
structure DB where
  chats : List ChatRow
  messages : List MessageRow
  nextChatId : Nat
  nextMsgId : Nat
deriving DecidableEq

/-- A row of the list-chats query: SELECT c.*, message_count,
last_message, where last_message is NULL (none) for a chat with no
messages. -/
structure ChatListRow where
  id : Nat
  title : String
  message_count : Nat
  last_message : Option Nat
deriving DecidableEq

/-- The SQL statements the handlers execute, by their parameters. -/
inductive SqlStmt where
  | selectChats
  | insertChat (title : String)
  | insertMessage (chat_id : Nat) (content : String) (is_bot : Bool) (timestamp : Nat)
  | selectMessages (chat_id : Nat)
  | deleteMessages
  | deleteChats
deriving DecidableEq

/-- Result of a successful statement: a cursor value (lastrowid for
inserts, fetched rows for selects). -/
inductive SqlValue where
  | rowid (id : Nat)
  | chatRows (rows : List ChatListRow)
  | messageRows (rows : List MessageRow)
  | done
deriving DecidableEq

/-- Errors raised by the storage layer: sqlite3.OperationalError carrying
its message, or any other exception. -/
inductive SqlError where
  | operational (msg : String)
  | other (msg : String)
deriving DecidableEq

/-- Python str(e): the error message text. -/
def SqlError.str : SqlError → String
  | SqlError.operational m => m
  | SqlError.other m => m

/-- Stable insertion into a sorted list: x goes before the first element
strictly greater than it, hence after earlier elements with equal keys. -/
def insertSorted (lt : α → α → Bool) (x : α) : List α → List α
  | [] => [x]
  | y :: ys => if lt x y then x :: y :: ys else y :: insertSorted lt x ys

/-- Stable sort by a strict comparison (models SQL ORDER BY). -/
def sortRows (lt : α → α → Bool) (l : List α) : List α :=
  l.foldl (fun acc x => insertSorted lt x acc) []

/-- SQL MAX(timestamp) over a set of rows: NULL (none) when empty. -/
def maxTimestamp (l : List Nat) : Option Nat :=
  l.foldr (fun t acc => match acc with
    | none => some t
    | some m => some (max t m)) none

/-- Messages belonging to one chat, in table order. -/
def msgsFor (db : DB) (cid : Nat) : List MessageRow :=
  db.messages.filter (fun m => m.chat_id == cid)

/-- One entry of the list-chats query for a given chat row. -/
def chatEntry (db : DB) (c : ChatRow) : ChatListRow :=
  ChatListRow.mk c.id c.title (msgsFor db c.id).length
    (maxTimestamp ((msgsFor db c.id).map (fun m => m.timestamp)))

/-- ORDER BY last_message DESC with SQLite NULL ordering (NULL sorts as
smallest, hence last under DESC): a strictly before b. -/
def lastMsgDescLt (a b : Option Nat) : Bool :=
  match a, b with
  | some x, some y => y < x
  | some _, none => true
  | none, _ => false

/-- Semantics of each SQL statement on the current database state. -/
def applyStmt : SqlStmt → DB → DB × SqlValue
  | SqlStmt.selectChats, db =>
      (db, SqlValue.chatRows (sortRows
        (fun a b => lastMsgDescLt a.last_message b.last_message)
        (db.chats.map (chatEntry db))))
  | SqlStmt.insertChat title, db =>
      (DB.mk (db.chats ++ [ChatRow.mk db.nextChatId title]) db.messages
        (db.nextChatId + 1) db.nextMsgId,
       SqlValue.rowid db.nextChatId)
  | SqlStmt.insertMessage cid content bot ts, db =>
      (DB.mk db.chats (db.messages ++ [MessageRow.mk db.nextMsgId cid content bot ts])
        db.nextChatId (db.nextMsgId + 1),
       SqlValue.rowid db.nextMsgId)
  | SqlStmt.selectMessages cid, db =>
      (db, SqlValue.messageRows
        (sortRows (fun a b => a.timestamp < b.timestamp) (msgsFor db cid)))
  | SqlStmt.deleteMessages, db =>
      (DB.mk db.chats [] db.nextChatId db.nextMsgId, SqlValue.done)
  | SqlStmt.deleteChats, db =>
      (DB.mk [] db.messages db.nextChatId db.nextMsgId, SqlValue.done)

/-- A fault schedule for the storage layer: the i-th low-level execute
call on the connection either succeeds (none) or raises the given error. -/
def Faults : Type := Nat → Option SqlError

/-- The schedule on which every statement succeeds. -/
def noFaults : Faults := fun _ => none

/-- A request-scoped connection: the committed store plus the current
uncommitted view.  Closing the connection without commit (the teardown on
an unhandled exception) discards the uncommitted view. -/
structure Conn where
  committed : DB
  cur : DB
deriving DecidableEq

/-- db.commit(): make the current view durable. -/
def Conn.commit (c : Conn) : Conn := Conn.mk c.cur c.cur

/-- db.rollback(): discard uncommitted changes. -/
def Conn.rollback (c : Conn) : Conn := Conn.mk c.committed c.committed

/-- db.execute(query, params): consume one slot of the fault schedule;
on a scheduled fault the statement raises and the view is unchanged.
Returns the outcome together with the next call index. -/
def dbExec (f : Faults) (st : SqlStmt) (c : Conn) (n : Nat) :
    Except SqlError (Conn × SqlValue) × Nat :=
  match f n with
  | some e => (Except.error e, n + 1)
  | none =>
      let r := applyStmt st c.cur
      (Except.ok (Conn.mk c.committed r.1, r.2), n + 1)

/-!
Text post-processing (format_response) and the response generator.
Python regular expressions over the relevant patterns are modelled
character by character.
-/

/-- Python \s on the character classes the code can meet: space, tab,
newline, carriage return, vertical tab, form feed. -/
def isPySpace (c : Char) : Bool :=
  c = ' ' || c = '\t' || c = '\n' || c = '\r' || c = '\x0b' || c = '\x0c'

/-- Python str.strip(): drop whitespace from both ends. -/
def pyStrip (l : List Char) : List Char :=
  ((l.dropWhile isPySpace).reverse.dropWhile isPySpace).reverse

/-- re.sub of the pattern digits-dot-whitespace with a bullet marker:
each occurrence of one or more digits, a literal dot and at least one
whitespace character is replaced by a bullet and a space, scanning left
to right over non-overlapping matches. -/
def subNumbered (l : List Char) : List Char :=
  match l with
  | [] => []
  | c :: cs =>
    if hc : c.isDigit then
      match h1 : (c :: cs).dropWhile Char.isDigit with
      | '.' :: r2 =>
        if (r2.takeWhile isPySpace).isEmpty then
          (c :: cs).takeWhile Char.isDigit ++ '.' :: subNumbered r2
        else '•' :: ' ' :: subNumbered (r2.dropWhile isPySpace)
      | r1 => (c :: cs).takeWhile Char.isDigit ++ subNumbered r1
    else c :: subNumbered cs
termination_by l.length
decreasing_by
  · rw [List.dropWhile_cons, if_pos hc] at h1
    have hle := (List.dropWhile_suffix (l := cs) Char.isDigit).length_le
    rw [h1] at hle
    simp at hle ⊢
    omega
  · rw [List.dropWhile_cons, if_pos hc] at h1
    have hle := (List.dropWhile_suffix (l := cs) Char.isDigit).length_le
    rw [h1] at hle
    have h2 := (List.dropWhile_suffix (l := r2) isPySpace).length_le
    simp at hle ⊢
    omega
  · rw [List.dropWhile_cons, if_pos hc] at h1
    have hle := (List.dropWhile_suffix (l := cs) Char.isDigit).length_le
    rw [h1] at hle
    simp
    omega
  · simp

/-- Separator class of re.split: newline or bullet. -/
def isSep (c : Char) : Bool := c = '\n' || c = '•'

/-- re.split on runs of newline or bullet characters: the pieces between
maximal separator runs, with an empty piece at an end that begins or
finishes with a separator. -/
def splitSep (l : List Char) : List (List Char) :=
  match h : l.dropWhile (fun c => !isSep c) with
  | [] => [l.takeWhile (fun c => !isSep c)]
  | x :: xs =>
    l.takeWhile (fun c => !isSep c) :: splitSep (xs.dropWhile isSep)
termination_by l.length
decreasing_by
  have h1 := (List.dropWhile_suffix (l := l) (fun c => !isSep c)).length_le
  rw [h] at h1
  have h2 := (List.dropWhile_suffix (l := xs) isSep).length_le
  simp at h1 ⊢
  omega

/-- True when the point already starts with a bullet marker. -/
def startsBullet : List Char → Bool
  | '•' :: _ => true
  | _ => false

/-- Per-point step of format_response: strip, drop if empty, capitalize
the first character, add a bullet marker when absent. -/
def processPoint (p : List Char) : Option (List Char) :=
  match pyStrip p with
  | [] => none
  | c :: rest =>
    let cap := c.toUpper :: rest
    some (if startsBullet cap then cap else '•' :: ' ' :: cap)

/-- re.sub of colon-then-whitespace with colon and a blank line: every
colon swallows the following whitespace run and is followed by two
newlines. -/
def subColon (l : List Char) : List Char :=
  match l with
  | [] => []
  | c :: cs =>
    if c = ':' then ':' :: '\n' :: '\n' :: subColon (cs.dropWhile isPySpace)
    else c :: subColon cs
termination_by l.length
decreasing_by
  · have hle := (List.dropWhile_suffix (l := cs) isPySpace).length_le
    simp
    omega
  · simp

/-- format_response from the source: rewrite numbered-list markers as
bullets, split into points, clean each point, join with blank lines,
force a paragraph break after each colon, and strip. -/
def format_response (s : String) : String :=
  let t1 := subNumbered s.data
  let points := splitSep t1
  let fps := points.filterMap processPoint
  let joined := List.intercalate ('\n' :: '\n' :: []) fps
  String.mk (pyStrip (subColon joined))

/-- generate_healthcare_response from the source: the outcome of the
external completion call is passed in as data (ok carries the raw
response text, error carries str(e) of the raised exception); on success
the raw text is formatted, on any failure the fallback string embedding
the error text is returned.  The function is total: it never raises. -/
def generate_healthcare_response (ext : Except String String) : String :=
  match ext with
  | Except.ok raw => format_response raw
  | Except.error e =>
      "Sorry, I\x27m having trouble responding right now. Please try again later. Error: " ++ e

/-!
The retry helper and the five route handlers.  Each handler opens a
fresh request-scoped connection over the given stored state, runs its
statements against a fault schedule starting at call index 0, and
returns the outcome (Except.error is an exception left for the
framework), the stored state after connection teardown (uncommitted
changes are discarded), and the number of low-level execute calls made.
-/

/-- Whether sub occurs as a contiguous substring of s (Python: sub in s). -/
def isSubstring (sub s : List Char) : Bool :=
  match s with
  | [] => sub.isEmpty
  | _ :: tail => sub.isPrefixOf s || isSubstring sub tail

/-- The loop of execute_with_retry: remaining iterations of the Python
for-loop, the current attempt index, and the next call index.  Returns
the outcome (ok none models the None the Python function returns when
retries is 0 and the loop body never runs), the next call index, and the
list of sleep durations in tenths of a second (time.sleep(0.1 * (attempt
+ 1)) is recorded as attempt + 1). -/
def retryLoop (f : Faults) (st : SqlStmt) (db : DB) (retries : Nat) :
    Nat → Nat → Nat → Except SqlError (Option (DB × SqlValue)) × Nat × List Nat
  | 0, _, n => (Except.ok none, n, [])
  | rem + 1, attempt, n =>
    match f n with
    | none => (Except.ok (some (applyStmt st db)), n + 1, [])
    | some e =>
      match e with
      | SqlError.operational msg =>
        if isSubstring "locked".data msg.data = true ∧ attempt < retries - 1 then
          let r := retryLoop f st db retries rem (attempt + 1) (n + 1)
          (r.1, r.2.1, (attempt + 1) :: r.2.2)
        else (Except.error e, n + 1, [])
      | SqlError.other _ => (Except.error e, n + 1, [])

/-- execute_with_retry from the source: run the statement, catching an
OperationalError whose text mentions locked and retrying after a sleep
while attempts remain; any other exception, and the lock error of the
final attempt, propagate unchanged.  The call site uses the default
bound retries = 3. -/
def execute_with_retry (f : Faults) (st : SqlStmt) (db : DB) (retries n : Nat) :
    Except SqlError (Option (DB × SqlValue)) × Nat × List Nat :=
  retryLoop f st db retries retries 0 n

/-- JSON responses of the five handlers, by route and status. -/
inductive ApiOut where
  | okChats (rows : List ChatListRow)
  | okCreate (id : Nat) (title : String)
  | okMessages (rows : List MessageRow)
  | okSend (user_message : String) (ai_response : String) (chat_id : Nat)
  | okClear (new_chat_id : Nat)
  | badRequest (error : String)
  | serverError (error : String)
deriving DecidableEq

/-- lastrowid of a cursor value. -/
def SqlValue.lastrowid : SqlValue → Nat
  | SqlValue.rowid i => i
  | _ => 0

/-- Fetched message rows of a cursor value. -/
def SqlValue.fetchedMessages : SqlValue → List MessageRow
  | SqlValue.messageRows r => r
  | _ => []

/-- Fetched chat rows of a cursor value. -/
def SqlValue.fetchedChats : SqlValue → List ChatListRow
  | SqlValue.chatRows r => r
  | _ => []

/-- The seed message inserted on chat creation. -/
def greeting : String :=
  "Hello! I\x27m your AI Healthcare Bot. How can I assist you today?"

/-- GET /api/chats: one aggregate select, no commit. -/
def get_chats (f : Faults) (db : DB) : Except SqlError ApiOut × DB × Nat :=
  let c0 := Conn.mk db db
  match dbExec f SqlStmt.selectChats c0 0 with
  | (Except.error e, n1) => (Except.error e, c0.committed, n1)
  | (Except.ok (c1, v), n1) =>
      (Except.ok (ApiOut.okChats v.fetchedChats), c1.committed, n1)

/-- POST /api/chats: reject a missing body or a missing or empty title
before touching storage; otherwise insert the chat row, insert the seed
bot message with the new rowid, commit, and answer with id and title.
The request body is modelled by the title it carries (none covers a
missing body and a missing title key). -/
def create_chat (f : Faults) (title : Option String) (now : Nat) (db : DB) :
    Except SqlError ApiOut × DB × Nat :=
  match title with
  | none => (Except.ok (ApiOut.badRequest "Chat title is required"), db, 0)
  | some t =>
    if t = "" then (Except.ok (ApiOut.badRequest "Chat title is required"), db, 0)
    else
      let c0 := Conn.mk db db
      match dbExec f (SqlStmt.insertChat t) c0 0 with
      | (Except.error e, n1) => (Except.error e, c0.committed, n1)
      | (Except.ok (c1, v), n1) =>
        match dbExec f (SqlStmt.insertMessage v.lastrowid greeting true now) c1 n1 with
        | (Except.error e, n2) => (Except.error e, c1.committed, n2)
        | (Except.ok (c2, _), n2) =>
            (Except.ok (ApiOut.okCreate v.lastrowid t), c2.commit.committed, n2)

/-- GET /api/chats/(chat_id)/messages: one select ordered by timestamp,
no commit. -/
def get_messages (f : Faults) (chat_id : Nat) (db : DB) :
    Except SqlError ApiOut × DB × Nat :=
  let c0 := Conn.mk db db
  match dbExec f (SqlStmt.selectMessages chat_id) c0 0 with
  | (Except.error e, n1) => (Except.error e, c0.committed, n1)
  | (Except.ok (c1, v), n1) =>
      (Except.ok (ApiOut.okMessages v.fetchedMessages), c1.committed, n1)

/-- POST /api/chats/(chat_id)/messages: reject a missing body or a
missing or empty content before touching storage; otherwise insert the
user message, generate the reply (ext is the outcome of the external
completion call), insert the bot message, commit, and answer with the
success body.  The timestamps t1 and t2 are the wall-clock reads at the
two inserts. -/
def send_message (f : Faults) (chat_id : Nat) (content : Option String)
    (ext : Except String String) (t1 t2 : Nat) (db : DB) :
    Except SqlError ApiOut × DB × Nat :=
  match content with
  | none => (Except.ok (ApiOut.badRequest "Message content is required"), db, 0)
  | some body =>
    if body = "" then (Except.ok (ApiOut.badRequest "Message content is required"), db, 0)
    else
      let c0 := Conn.mk db db
      match dbExec f (SqlStmt.insertMessage chat_id body false t1) c0 0 with
      | (Except.error e, n1) => (Except.error e, c0.committed, n1)
      | (Except.ok (c1, _), n1) =>
        let ai := generate_healthcare_response ext
        match dbExec f (SqlStmt.insertMessage chat_id ai true t2) c1 n1 with
        | (Except.error e, n2) => (Except.error e, c1.committed, n2)
        | (Except.ok (c2, _), n2) =>
            (Except.ok (ApiOut.okSend body ai chat_id), c2.commit.committed, n2)

/-- DELETE /api/chats: inside a try block, delete all messages, delete
all chats, commit, insert the replacement chat, commit, and answer with
the new rowid; any exception is caught, the connection rolled back, and
a 500 response with str(e) returned. -/
def clear_conversations (f : Faults) (db : DB) : Except SqlError ApiOut × DB × Nat :=
  let c0 := Conn.mk db db
  match dbExec f SqlStmt.deleteMessages c0 0 with
  | (Except.error e, n1) => (Except.ok (ApiOut.serverError e.str), c0.rollback.committed, n1)
  | (Except.ok (c1, _), n1) =>
    match dbExec f SqlStmt.deleteChats c1 n1 with
    | (Except.error e, n2) => (Except.ok (ApiOut.serverError e.str), c1.rollback.committed, n2)
    | (Except.ok (c2, _), n2) =>
      let c3 := c2.commit
      match dbExec f (SqlStmt.insertChat "New Chat") c3 n2 with
      | (Except.error e, n3) =>
          (Except.ok (ApiOut.serverError e.str), c3.rollback.committed, n3)
      | (Except.ok (c4, v), n3) =>
          (Except.ok (ApiOut.okClear v.lastrowid), c4.commit.committed, n3)

/-!
Derived notions and concrete states used by the verification below.
-/

/-- Referential integrity of the store: every message row references a
chat id present in the chats table. -/
def refIntegrityB (db : DB) : Bool :=
  db.messages.all (fun m => db.chats.any (fun c => c.id == m.chat_id))

/-- n consecutive bulk-clear calls on a fault-free store, threading the
persisted state. -/
def iterClear : Nat → DB → DB
  | 0, db => db
  | n + 1, db => iterClear n (clear_conversations noFaults db).2.1

/-- The freshly initialised store: both tables empty, rowids start at 1. -/
def db0 : DB := DB.mk [] [] 1 1

/-- A store with one chat and one message row belonging to it. -/
def dbA : DB := DB.mk [ChatRow.mk 1 "A"] [MessageRow.mk 1 1 "m" false 0] 2 2

/-- A fault schedule whose first execute call raises the lock-contention
error and whose later calls succeed: a transient lock. -/
def fLock : Faults :=
  fun i => if i == 0 then some (SqlError.operational "database is locked") else none

/-- A fault schedule on which every execute call raises the
lock-contention error. -/
def fAllLocked : Faults := fun _ => some (SqlError.operational "database is locked")

/-- A fault schedule whose third execute call (index 2) raises a
non-transient storage error. -/
def fThird : Faults :=
  fun i => if i == 2 then some (SqlError.operational "disk full") else none

/-- Fault-free create_chat on a valid title: inserts the chat row and the
single seed bot message, commits, returns id and title, in two execute
calls. -/
theorem create_chat_ok (db : DB) (t : String) (now : Nat) (h : t ≠ "") :
    create_chat noFaults (some t) now db =
      (Except.ok (ApiOut.okCreate db.nextChatId t),
       DB.mk (db.chats ++ [ChatRow.mk db.nextChatId t])
         (db.messages ++ [MessageRow.mk db.nextMsgId db.nextChatId greeting true now])
         (db.nextChatId + 1) (db.nextMsgId + 1), 2) := by
  simp [create_chat, dbExec, noFaults, applyStmt, Conn.commit, h, SqlValue.lastrowid]

/-- Fault-free send_message on a valid body: appends the user row and the
bot row carrying the generated response, commits, returns the success
body, in two execute calls. -/
theorem send_message_ok (db : DB) (cid t1 t2 : Nat) (body : String)
    (ext : Except String String) (h : body ≠ "") :
    send_message noFaults cid (some body) ext t1 t2 db =
      (Except.ok (ApiOut.okSend body (generate_healthcare_response ext) cid),
       DB.mk db.chats
         (db.messages ++
           [MessageRow.mk db.nextMsgId cid body false t1,
            MessageRow.mk (db.nextMsgId + 1) cid (generate_healthcare_response ext) true t2])
         db.nextChatId (db.nextMsgId + 2), 2) := by
  simp [send_message, dbExec, noFaults, applyStmt, Conn.commit, h]

/-- Fault-free bulk-clear: empties both tables and leaves exactly the
replacement chat, in three execute calls. -/
theorem clear_ok (db : DB) :
    clear_conversations noFaults db =
      (Except.ok (ApiOut.okClear db.nextChatId),
       DB.mk [ChatRow.mk db.nextChatId "New Chat"] [] (db.nextChatId + 1) db.nextMsgId,
       3) := rfl

/-- Claim C8: a chat-creation request with a missing or empty title and a
send-message request with a missing or empty content each yield the 400
error body, and the stored state is unchanged with zero execute calls
made, under every fault schedule. -/
theorem C8_validation_rejects_before_storage (f : Faults) (now cid t1 t2 : Nat)
    (ext : Except String String) (db : DB) :
    create_chat f none now db =
      (Except.ok (ApiOut.badRequest "Chat title is required"), db, 0) ∧
    create_chat f (some "") now db =
      (Except.ok (ApiOut.badRequest "Chat title is required"), db, 0) ∧
    send_message f cid none ext t1 t2 db =
      (Except.ok (ApiOut.badRequest "Message content is required"), db, 0) ∧
    send_message f cid (some "") ext t1 t2 db =
      (Except.ok (ApiOut.badRequest "Message content is required"), db, 0) :=
  ⟨rfl, rfl, rfl, rfl⟩

/-- Claim C10: listing messages of a chat that has no message rows, the
chat itself existing or not, succeeds with the empty array. -/
theorem C10_get_messages_empty (db : DB) (cid : Nat)
    (h : ∀ m ∈ db.messages, m.chat_id ≠ cid) :
    get_messages noFaults cid db = (Except.ok (ApiOut.okMessages []), db, 1) := by
  have hf : msgsFor db cid = [] := by
    apply List.filter_eq_nil_iff.mpr
    intro m hm
    simp [h m hm]
  simp [get_messages, dbExec, noFaults, applyStmt, hf, sortRows, SqlValue.fetchedMessages]

theorem C10_get_messages_empty_witness :
    get_messages noFaults 999 dbA = (Except.ok (ApiOut.okMessages []), dbA, 1) :=
  C10_get_messages_empty dbA 999 (by decide)

/-- Claim C6: a successful send-message call appends exactly the
user-authored row with the request content and the bot-authored row with
the returned response, and nothing else. -/
theorem C6_send_message_appends_two (db : DB) (cid t1 t2 : Nat) (body : String)
    (ext : Except String String) (h : body ≠ "") :
    send_message noFaults cid (some body) ext t1 t2 db =
      (Except.ok (ApiOut.okSend body (generate_healthcare_response ext) cid),
       DB.mk db.chats
         (db.messages ++
           [MessageRow.mk db.nextMsgId cid body false t1,
            MessageRow.mk (db.nextMsgId + 1) cid (generate_healthcare_response ext) true t2])
         db.nextChatId (db.nextMsgId + 2), 2) :=
  send_message_ok db cid t1 t2 body ext h

theorem C6_send_message_appends_two_witness :
    send_message noFaults 1 (some "hi") (Except.error "down") 5 6 dbA =
      (Except.ok (ApiOut.okSend "hi"
          (generate_healthcare_response (Except.error "down")) 1),
       DB.mk dbA.chats
         (dbA.messages ++
           [MessageRow.mk 2 1 "hi" false 5,
            MessageRow.mk 3 1 (generate_healthcare_response (Except.error "down")) true 6])
         2 4, 2) :=
  C6_send_message_appends_two dbA 1 5 6 "hi" (Except.error "down") (by decide)

/-- Claim C7: the response generator is a total function, and on any
failure of the external call it returns the fallback text, which starts
with the fixed apology and embeds the error text; a send-message call
whose external call fails still persists both rows and answers success
with the fallback as ai_response. -/
theorem C7_fallback_on_external_failure (err body : String) (db : DB)
    (cid t1 t2 : Nat) (h : body ≠ "") :
    generate_healthcare_response (Except.error err) =
      "Sorry, I\x27m having trouble responding right now." ++
        (" Please try again later. Error: " ++ err) ∧
    send_message noFaults cid (some body) (Except.error err) t1 t2 db =
      (Except.ok (ApiOut.okSend body
          (generate_healthcare_response (Except.error err)) cid),
       DB.mk db.chats
         (db.messages ++
           [MessageRow.mk db.nextMsgId cid body false t1,
            MessageRow.mk (db.nextMsgId + 1) cid
              (generate_healthcare_response (Except.error err)) true t2])
         db.nextChatId (db.nextMsgId + 2), 2) := by
  constructor
  · show "Sorry, I\x27m having trouble responding right now. Please try again later. Error: " ++ err = _
    rw [← String.append_assoc]
    congr 1
  · exact send_message_ok db cid t1 t2 body (Except.error err) h

theorem C7_fallback_on_external_failure_witness :
    generate_healthcare_response (Except.error "boom") =
      "Sorry, I\x27m having trouble responding right now." ++
        (" Please try again later. Error: " ++ "boom") ∧
    send_message noFaults 1 (some "hurts") (Except.error "boom") 5 6 dbA =
      (Except.ok (ApiOut.okSend "hurts"
          (generate_healthcare_response (Except.error "boom")) 1),
       DB.mk dbA.chats
         (dbA.messages ++
           [MessageRow.mk 2 1 "hurts" false 5,
            MessageRow.mk 3 1 (generate_healthcare_response (Except.error "boom")) true 6])
         2 4, 2) :=
  C7_fallback_on_external_failure "boom" "hurts" dbA 1 5 6 (by decide)

/-- Claim C2: for any statement, the retry helper retries a
lock-contention failure up to the fixed bound of 3 attempts with sleeps
of 0.1 and 0.2 seconds (recorded in tenths) between consecutive
attempts, propagating the final attempt's error unchanged; and a
transient lock that clears by the second attempt yields the statement's
result. -/
theorem C2_retry_policy (st : SqlStmt) (db : DB) (n : Nat) (m0 m1 m2 : String)
    (h0 : isSubstring "locked".data m0.data = true)
    (h1 : isSubstring "locked".data m1.data = true) :
    (∀ f : Faults, f n = some (SqlError.operational m0) →
      f (n + 1) = some (SqlError.operational m1) →
      f (n + 2) = some (SqlError.operational m2) →
      execute_with_retry f st db 3 n =
        (Except.error (SqlError.operational m2), n + 3, [1, 2])) ∧
    (∀ f : Faults, f n = some (SqlError.operational m0) →
      f (n + 1) = none →
      execute_with_retry f st db 3 n =
        (Except.ok (some (applyStmt st db)), n + 2, [1])) := by
  constructor
  · intro f hf0 hf1 hf2
    simp [execute_with_retry, retryLoop, hf0, hf1, hf2, h0, h1]
  · intro f hf0 hf1
    simp [execute_with_retry, retryLoop, hf0, hf1, h0]

theorem C2_retry_policy_witness :
    execute_with_retry fAllLocked SqlStmt.deleteMessages db0 3 0 =
      (Except.error (SqlError.operational "database is locked"), 3, [1, 2]) ∧
    execute_with_retry fLock SqlStmt.deleteMessages db0 3 0 =
      (Except.ok (some (applyStmt SqlStmt.deleteMessages db0)), 2, [1]) :=
  ⟨(C2_retry_policy SqlStmt.deleteMessages db0 0 "database is locked"
      "database is locked" "database is locked" (by decide) (by decide)).1
      fAllLocked rfl rfl rfl,
   (C2_retry_policy SqlStmt.deleteMessages db0 0 "database is locked"
      "database is locked" "database is locked" (by decide) (by decide)).2
      fLock rfl rfl⟩

/-- Claim C5: bulk-clear is idempotent in structure: after n consecutive
successful calls, for any n of at least 1 and any starting state, the
store holds exactly one chat, titled New Chat, and zero message rows. -/
theorem C5_bulk_clear_idempotent (db : DB) (n : Nat) (h : 1 ≤ n) :
    (iterClear n db).chats.length = 1 ∧
    (∀ c ∈ (iterClear n db).chats, c.title = "New Chat") ∧
    (iterClear n db).messages = [] := by
  obtain ⟨m, rfl⟩ : ∃ m, n = m + 1 := ⟨n - 1, by omega⟩
  clear h
  induction m generalizing db with
  | zero => simp [iterClear, clear_ok]
  | succ k ih =>
    show _ ∧ _ ∧ _
    have hstep : iterClear (k + 1 + 1) db =
        iterClear (k + 1) (clear_conversations noFaults db).2.1 := rfl
    rw [hstep]
    exact ih _

theorem C5_bulk_clear_idempotent_witness :
    (iterClear 2 dbA).chats.length = 1 ∧
    (∀ c ∈ (iterClear 2 dbA).chats, c.title = "New Chat") ∧
    (iterClear 2 dbA).messages = [] :=
  C5_bulk_clear_idempotent dbA 2 (by decide)

/-- Claim C3 as stated is false: on the fresh store, creating a chat with
title Test leaves exactly one message row for the new chat (id 1), not
two. -/
theorem C3_counterexample :
    (msgsFor (create_chat noFaults (some "Test") 7 db0).2.1 1).length = 1 ∧
    ¬ (msgsFor (create_chat noFaults (some "Test") 7 db0).2.1 1).length = 2 := by
  decide

/-- Claim C3 amended: for every valid chat-creation request on a store
whose message rows never reference the upcoming chat id, no message row
for the new chat exists before creation, and immediately after creation
exactly one message row exists for it: the bot-authored seed greeting. -/
theorem C3_amended_one_seed_message (db : DB) (t : String) (now : Nat)
    (h : t ≠ "") (hfresh : ∀ m ∈ db.messages, m.chat_id ≠ db.nextChatId) :
    msgsFor db db.nextChatId = [] ∧
    create_chat noFaults (some t) now db =
      (Except.ok (ApiOut.okCreate db.nextChatId t),
       DB.mk (db.chats ++ [ChatRow.mk db.nextChatId t])
         (db.messages ++ [MessageRow.mk db.nextMsgId db.nextChatId greeting true now])
         (db.nextChatId + 1) (db.nextMsgId + 1), 2) ∧
    msgsFor (create_chat noFaults (some t) now db).2.1 db.nextChatId =
      [MessageRow.mk db.nextMsgId db.nextChatId greeting true now] := by
  have hempty : msgsFor db db.nextChatId = [] := by
    apply List.filter_eq_nil_iff.mpr
    intro m hm
    simp [hfresh m hm]
  refine ⟨hempty, create_chat_ok db t now h, ?_⟩
  rw [create_chat_ok db t now h]
  simp [msgsFor] at hempty ⊢
  exact hempty

theorem C3_amended_one_seed_message_witness :
    msgsFor db0 1 = [] ∧
    create_chat noFaults (some "Test") 7 db0 =
      (Except.ok (ApiOut.okCreate 1 "Test"),
       DB.mk [ChatRow.mk 1 "Test"] [MessageRow.mk 1 1 greeting true 7] 2 2, 2) ∧
    msgsFor (create_chat noFaults (some "Test") 7 db0).2.1 1 =
      [MessageRow.mk 1 1 greeting true 7] :=
  C3_amended_one_seed_message db0 "Test" 7 (by decide) (by decide)

/-- Claim C1 as stated is false: a transient lock-contention failure that
clears on the very next call makes send-message raise after a single
execute call, while the same statement run through execute_with_retry
succeeds on its second attempt; the handlers do not route statements
through the retry helper. -/
theorem C1_counterexample :
    (send_message fLock 1 (some "hi") (Except.error "down") 5 6 db0).1 =
      Except.error (SqlError.operational "database is locked") ∧
    (send_message fLock 1 (some "hi") (Except.error "down") 5 6 db0).2.2 = 1 ∧
    execute_with_retry fLock (SqlStmt.insertMessage 1 "hi" false 5) db0 3 0 =
      (Except.ok (some (applyStmt (SqlStmt.insertMessage 1 "hi" false 5) db0)), 2, [1]) :=
  ⟨rfl, rfl, rfl⟩

/-- Claim C1 amended: no data-access operation executes its statements
through the retry loop; a lock-contention failure on the first statement
of any of the five operations is propagated after exactly one execute
call, with no retry: unhandled for list chats, create chat, list
messages and append message, and converted to the 500 error body by
bulk-clear. -/
theorem C1_amended_no_retry_in_handlers (msg : String) (f : Faults) (db : DB)
    (t body : String) (now cid t1 t2 : Nat) (ext : Except String String)
    (hlock : isSubstring "locked".data msg.data = true)
    (hf : f 0 = some (SqlError.operational msg)) (ht : t ≠ "") (hb : body ≠ "") :
    get_chats f db = (Except.error (SqlError.operational msg), db, 1) ∧
    create_chat f (some t) now db = (Except.error (SqlError.operational msg), db, 1) ∧
    get_messages f cid db = (Except.error (SqlError.operational msg), db, 1) ∧
    send_message f cid (some body) ext t1 t2 db =
      (Except.error (SqlError.operational msg), db, 1) ∧
    clear_conversations f db = (Except.ok (ApiOut.serverError msg), db, 1) := by
  refine ⟨?_, ?_, ?_, ?_, ?_⟩
  · simp [get_chats, dbExec, hf]
  · simp [create_chat, dbExec, hf, ht]
  · simp [get_messages, dbExec, hf]
  · simp [send_message, dbExec, hf, hb]
  · simp [clear_conversations, dbExec, hf, Conn.rollback, SqlError.str]

theorem C1_amended_no_retry_in_handlers_witness :
    get_chats fLock db0 =
      (Except.error (SqlError.operational "database is locked"), db0, 1) ∧
    create_chat fLock (some "T") 7 db0 =
      (Except.error (SqlError.operational "database is locked"), db0, 1) ∧
    get_messages fLock 1 db0 =
      (Except.error (SqlError.operational "database is locked"), db0, 1) ∧
    send_message fLock 1 (some "hi") (Except.error "down") 5 6 db0 =
      (Except.error (SqlError.operational "database is locked"), db0, 1) ∧
    clear_conversations fLock db0 =
      (Except.ok (ApiOut.serverError "database is locked"), db0, 1) :=
  C1_amended_no_retry_in_handlers "database is locked" fLock db0 "T" "hi" 7 1 5 6
    (Except.error "down") (by decide) rfl (by decide) (by decide)

/-- Claim C4 as stated is false: when the replacement-chat insert fails
after the two deletes were committed, bulk-clear still answers 500 with
the raw error text, but the persisted state is the emptied store, not
the state from before the call. -/
theorem C4_counterexample :
    clear_conversations fThird dbA =
      (Except.ok (ApiOut.serverError "disk full"), DB.mk [] [] 2 2, 3) ∧
    ¬ (clear_conversations fThird dbA).2.1 = dbA :=
  ⟨rfl, by decide⟩

/-- Claim C4 amended: any storage exception during bulk-clear is caught
and answered with a 500 response carrying the raw error text, and only
the uncommitted portion of the transaction is rolled back: a failure of
either delete leaves the state as before the call, while a failure of
the replacement-chat insert happens after the intermediate commit and
leaves both tables empty. -/
theorem C4_amended_rollback_scope (db : DB) (e : SqlError) (f : Faults) :
    (f 0 = some e →
      clear_conversations f db = (Except.ok (ApiOut.serverError e.str), db, 1)) ∧
    (f 0 = none → f 1 = some e →
      clear_conversations f db = (Except.ok (ApiOut.serverError e.str), db, 2)) ∧
    (f 0 = none → f 1 = none → f 2 = some e →
      clear_conversations f db =
        (Except.ok (ApiOut.serverError e.str),
         DB.mk [] [] db.nextChatId db.nextMsgId, 3)) := by
  refine ⟨?_, ?_, ?_⟩
  · intro h0
    simp [clear_conversations, dbExec, h0, Conn.rollback]
  · intro h0 h1
    simp [clear_conversations, dbExec, h0, h1, Conn.rollback, applyStmt]
  · intro h0 h1 h2
    simp [clear_conversations, dbExec, h0, h1, h2, Conn.rollback, Conn.commit, applyStmt]

theorem C4_amended_rollback_scope_witness :
    clear_conversations fThird dbA =
      (Except.ok (ApiOut.serverError (SqlError.operational "disk full").str),
       DB.mk [] [] dbA.nextChatId dbA.nextMsgId, 3) :=
  (C4_amended_rollback_scope dbA (SqlError.operational "disk full") fThird).2.2
    rfl rfl rfl

/-- Claim C9 as stated is false: on a store satisfying referential
integrity, a send-message call addressed to the nonexistent chat id 999
succeeds and persists two message rows referencing that id, breaking the
invariant. -/
theorem C9_counterexample :
    refIntegrityB dbA = true ∧
    (send_message noFaults 999 (some "hi") (Except.error "down") 5 6 dbA).1 =
      Except.ok (ApiOut.okSend "hi"
        (generate_healthcare_response (Except.error "down")) 999) ∧
    refIntegrityB (send_message noFaults 999 (some "hi")
        (Except.error "down") 5 6 dbA).2.1 = false :=
  ⟨rfl, rfl, rfl⟩

/-- Claim C9 amended: referential integrity is preserved by chat
creation, holds after bulk-clear, and is preserved by a send-message
call addressed to an existing chat; send-message performs no existence
check, so only the last guard keeps the invariant. -/
theorem C9_amended_integrity_when_chat_exists :
    (∀ db t now, refIntegrityB db = true → t ≠ "" →
      refIntegrityB (create_chat noFaults (some t) now db).2.1 = true) ∧
    (∀ db, refIntegrityB (clear_conversations noFaults db).2.1 = true) ∧
    (∀ db cid body ext t1 t2, refIntegrityB db = true → body ≠ "" →
      (∃ c ∈ db.chats, c.id = cid) →
      refIntegrityB (send_message noFaults cid (some body) ext t1 t2 db).2.1 = true) := by
  refine ⟨?_, ?_, ?_⟩
  · intro db t now h ht
    rw [create_chat_ok db t now ht]
    simp only [refIntegrityB, List.all_eq_true, List.any_eq_true] at h ⊢
    intro m hm
    rcases List.mem_append.mp hm with hml | hmr
    · obtain ⟨c, hc, hcid⟩ := h m hml
      exact ⟨c, List.mem_append.mpr (Or.inl hc), hcid⟩
    · simp at hmr
      subst hmr
      exact ⟨ChatRow.mk db.nextChatId t, List.mem_append.mpr (Or.inr (by simp)), by simp⟩
  · intro db
    rw [clear_ok db]
    rfl
  · intro db cid body ext t1 t2 h hb hex
    rw [send_message_ok db cid t1 t2 body ext hb]
    simp only [refIntegrityB, List.all_eq_true, List.any_eq_true] at h ⊢
    intro m hm
    rcases List.mem_append.mp hm with hml | hmr
    · exact h m hml
    · obtain ⟨c, hc, hcid⟩ := hex
      simp at hmr
      rcases hmr with h1 | h2
      · subst h1
        exact ⟨c, hc, by simpa using hcid⟩
      · subst h2
        exact ⟨c, hc, by simpa using hcid⟩

theorem C9_amended_integrity_when_chat_exists_witness :
    refIntegrityB (create_chat noFaults (some "T") 3 dbA).2.1 = true ∧
    refIntegrityB (clear_conversations noFaults dbA).2.1 = true ∧
    refIntegrityB (send_message noFaults 1 (some "hi")
        (Except.error "x") 5 6 dbA).2.1 = true :=
  ⟨C9_amended_integrity_when_chat_exists.1 dbA "T" 3 (by decide) (by decide),
   C9_amended_integrity_when_chat_exists.2.1 dbA,
   C9_amended_integrity_when_chat_exists.2.2 dbA 1 "hi" (Except.error "x") 5 6
     (by decide) (by decide) ⟨ChatRow.mk 1 "A", by decide, rfl⟩⟩
